import Mathlib

/-!
Shallow embedding of the authentication and post-CRUD core of the
qa-assessment repository.  The repository ships the HTTP-level test suites
for this core (apps/client/src/app/root.tsx holds the supertest suite for
the auth routes, apps/server-e2e the posts suite); the server implementation
itself is not part of the shipped sources, so the operations below are
modelled from the specification (spec.md sections 3, 4 and 6), which
describes the login pipeline, the session lifecycle, the rate limiter and
the post CRUD operations in full.
-/

namespace Server

/-- User record (spec section 3): id, unique username, stored password hash. -/
structure User where
  id : String
  username : String
  password : String
deriving Repr, DecidableEq

/-- Session record (spec section 3): opaque id, owning user, bearer token,
creation timestamp (modelled as a Nat tick). -/
structure Session where
  id : String
  userId : String
  token : String
  createdAt : Nat
deriving Repr, DecidableEq

/-- Post record (spec section 3). -/
structure Post where
  id : String
  title : String
  content : String
  authorId : String
  createdAt : Nat
  updatedAt : Nat
deriving Repr, DecidableEq

/-- A structured validation error, shape `\x7bfield, message\x7d` (spec section 4.1). -/
structure FieldError where
  field : String
  message : String
deriving Repr, DecidableEq

/-- Observable HTTP response body: a generic message object, a validation
error array, a session object or a post object (spec section 6). -/
inductive Body where
  | message (text : String)
  | errors (list : List FieldError)
  | session (s : Session)
  | post (p : Post)
deriving Repr, DecidableEq

/-- Observable HTTP response: status code plus body (spec section 6). -/
structure HttpResponse where
  status : Nat
  body : Body
deriving Repr, DecidableEq

/-- Modelled from the spec: PasswordHasher.hash (spec section 4.2), a salted
one-way function in the bcrypt family.  The model keeps the digest
injective in the plaintext and syntactically distinct from it, which is all
the stated properties use. -/
def bcryptHash (plaintext : String) : String :=
  "$2b$10$" ++ plaintext

/-- Modelled from the spec: PasswordHasher.verify (spec section 4.2) /
bcrypt.compare: a plaintext verifies against exactly its own digest. -/
def bcryptCompare (plaintext digest : String) : Bool :=
  digest == bcryptHash plaintext

/-- Modelled from the spec: a user record as stored at registration/seed
time (spec section 3): the persisted password field holds the bcrypt digest
of the plaintext, never the plaintext. -/
def mkUser (id username plaintext : String) : User :=
  { id := id, username := username, password := bcryptHash plaintext }

/-- Modelled from the spec: UserStore lookup by username (spec section 4.3). -/
def findByUsername (users : List User) (username : String) : Option User :=
  users.find? (fun u => u.username == username)

/-- Modelled from the spec: UserStore.findByCredentials (spec section 4.3):
looks up by username, then verifies the password against the stored digest;
returns none if the username is absent or the password mismatches, the two
causes being indistinguishable. -/
def findByCredentials (users : List User) (username password : String) : Option User :=
  match findByUsername users username with
  | some u => if bcryptCompare password u.password then some u else none
  | none => none

/-- Modelled from the spec: the failed-attempt counter for a key in the
rate limiter state (spec sections 3 and 4.4); a key with no entry counts 0. -/
def failCount (failures : List (String × Nat)) (key : String) : Nat :=
  match failures.find? (fun kv => kv.1 == key) with
  | some kv => kv.2
  | none => 0

/-- Rate-limit threshold: 5 failed attempts per key (spec section 4.4). -/
def rateLimitThreshold : Nat := 5

/-- Modelled from the spec: RateLimiter.isBlocked (spec section 4.4). -/
def isBlocked (failures : List (String × Nat)) (key : String) : Bool :=
  rateLimitThreshold ≤ failCount failures key

/-- Modelled from the spec: RateLimiter.recordFailure (spec section 4.4):
increments the counter for the key. -/
def bumpFailure (failures : List (String × Nat)) (key : String) : List (String × Nat) :=
  (key, failCount failures key + 1) :: failures.filter (fun kv => !(kv.1 == key))

/-- Modelled from the spec: RateLimiter.reset (spec section 4.4): drops the
counter for the key back to 0. -/
def clearFailures (failures : List (String × Nat)) (key : String) : List (String × Nat) :=
  failures.filter (fun kv => !(kv.1 == key))

/-- Modelled from the spec: SessionStore.findByToken (spec section 4.5). -/
def findByToken (sessions : List Session) (token : String) : Option Session :=
  sessions.find? (fun sess => sess.token == token)

/-- Modelled from the spec: PostStore lookup by id (spec section 4.8). -/
def findPost (posts : List Post) (id : String) : Option Post :=
  posts.find? (fun p => p.id == id)

/-- Whole-server mutable state: user store, session store, rate-limiter
counters, post store, and the fresh-id supply used for new sessions, posts
and tokens (the spec asks for unique ids and unique unguessable tokens;
the model draws both from a monotone counter, which captures uniqueness). -/
structure ServerState where
  users : List User
  sessions : List Session
  failures : List (String × Nat)
  posts : List Post
  nextId : Nat
deriving Repr, DecidableEq

/-- Modelled from the spec: the Validator login schema (spec sections 4.1
and 8): username at least 3 characters, password at least 8, each violation
contributing one structured error with the literal zod message. -/
def validateLogin (username password : String) : List FieldError :=
  (if username.length < 3 then
    [{ field := "username", message := "String must contain at least 3 character(s)" }]
   else []) ++
  (if password.length < 8 then
    [{ field := "password", message := "String must contain at least 8 character(s)" }]
   else [])

/-- The generic credential rejection (spec section 6): 422 with body
message "Invalid credentials", shared by wrong-password, unknown-username
and rate-limited outcomes. -/
def invalidCredentialsResponse : HttpResponse :=
  { status := 422, body := Body.message "Invalid credentials" }

/-- The generic auth rejection (spec section 6): 401 with body message
"Unauthorized". -/
def unauthorizedResponse : HttpResponse :=
  { status := 401, body := Body.message "Unauthorized" }

/-- The generic collaborator-failure response (spec sections 6 and 7):
500 with body message "Internal server error". -/
def internalErrorResponse : HttpResponse :=
  { status := 500, body := Body.message "Internal server error" }

/-- The missing-resource response (spec section 6). -/
def notFoundResponse : HttpResponse :=
  { status := 404, body := Body.message "Post not found" }

/-- The non-owner mutation response (spec sections 4.8 and 7). -/
def forbiddenResponse : HttpResponse :=
  { status := 403, body := Body.message "Forbidden" }

/-- Fault model for storage collaborators (spec section 7): when a field is
`some e`, the corresponding collaborator throws the raw error `e` at its
call site during the request. -/
structure Faults where
  userStoreError : Option String
  sessionStoreError : Option String
deriving Repr, DecidableEq

/-- The fault-free collaborator configuration. -/
def noFaults : Faults := { userStoreError := none, sessionStoreError := none }

/-- Modelled from the spec: the AuthService login pipeline (spec section
4.6) with explicit collaborator faults.  Gates in order: validation (no
rate-limit side effect on failure), rate-limit check (before any UserStore
access), credential check (failure records a failed attempt), then
counter reset and session creation.  A thrown collaborator error is
returned as `Except.error` together with the state as mutated so far. -/
def loginResult (f : Faults) (s : ServerState) (username password : String)
    (now : Nat) : Except String HttpResponse × ServerState :=
  match validateLogin username password with
  | e :: rest => (Except.ok { status := 422, body := Body.errors (e :: rest) }, s)
  | [] =>
    if isBlocked s.failures username then
      (Except.ok invalidCredentialsResponse, s)
    else
      match f.userStoreError with
      | some e => (Except.error e, s)
      | none =>
        match findByCredentials s.users username password with
        | none =>
          (Except.ok invalidCredentialsResponse,
           { s with failures := bumpFailure s.failures username })
        | some user =>
          let s1 := { s with failures := clearFailures s.failures username }
          match f.sessionStoreError with
          | some e => (Except.error e, s1)
          | none =>
            let sess : Session :=
              { id := toString s1.nextId, userId := user.id,
                token := "tok-" ++ toString s1.nextId, createdAt := now }
            (Except.ok { status := 200, body := Body.session sess },
             { s1 with sessions := sess :: s1.sessions, nextId := s1.nextId + 1 })

/-- Modelled from the spec: the HTTP boundary around login (spec section
7): any collaborator exception is caught at the outermost service call and
converted to the literal 500 response, never propagated raw. -/
def loginHttp (f : Faults) (s : ServerState) (username password : String)
    (now : Nat) : HttpResponse × ServerState :=
  match loginResult f s username password now with
  | (Except.ok r, st) => (r, st)
  | (Except.error _, st) => (internalErrorResponse, st)

/-- POST /auth/login with healthy collaborators. -/
def login (s : ServerState) (username password : String) (now : Nat) :
    HttpResponse × ServerState :=
  loginHttp noFaults s username password now

/-- Modelled from the spec: AuthService.logout (spec section 4.6): absent
or empty token → 401; unmatched token → 401; matched token → delete exactly
that session (by its id) and answer 200 "Logged out". -/
def logout (s : ServerState) (token : Option String) : HttpResponse × ServerState :=
  match token with
  | none => (unauthorizedResponse, s)
  | some t =>
    if t = "" then (unauthorizedResponse, s)
    else
      match findByToken s.sessions t with
      | none => (unauthorizedResponse, s)
      | some sess =>
        ({ status := 200, body := Body.message "Logged out" },
         { s with sessions := s.sessions.filter (fun x => !(x.id == sess.id)) })

/-- Modelled from the spec: the Validator post schema (spec sections 3 and
4.1): the title must be non-empty. -/
def validatePost (title : String) : List FieldError :=
  if title = "" then
    [{ field := "title", message := "String must contain at least 1 character(s)" }]
  else []

/-- Modelled from the spec: PostService.create (spec section 4.8):
validation first (422 + error array), then a fresh record with
authorId = caller and createdAt = updatedAt = now, returned with 201. -/
def createPost (s : ServerState) (authorId title content : String) (now : Nat) :
    HttpResponse × ServerState :=
  match validatePost title with
  | e :: rest => ({ status := 422, body := Body.errors (e :: rest) }, s)
  | [] =>
    let post : Post :=
      { id := toString s.nextId, title := title, content := content,
        authorId := authorId, createdAt := now, updatedAt := now }
    ({ status := 201, body := Body.post post },
     { s with posts := post :: s.posts, nextId := s.nextId + 1 })

/-- Modelled from the spec: PostService.get (spec section 4.8). -/
def getPost (posts : List Post) (id : String) : HttpResponse :=
  match findPost posts id with
  | none => notFoundResponse
  | some post => { status := 200, body := Body.post post }

/-- Modelled from the spec: PostService.update (spec section 4.8): a
missing id is NotFound (never a validation error), a non-owner is
Forbidden, then validation, then the fields are applied and updatedAt
bumped to now. -/
def updatePost (s : ServerState) (id authorId title content : String) (now : Nat) :
    HttpResponse × ServerState :=
  match findPost s.posts id with
  | none => (notFoundResponse, s)
  | some post =>
    if post.authorId ≠ authorId then (forbiddenResponse, s)
    else
      match validatePost title with
      | e :: rest => ({ status := 422, body := Body.errors (e :: rest) }, s)
      | [] =>
        let updated : Post :=
          { post with title := title, content := content, updatedAt := now }
        ({ status := 200, body := Body.post updated },
         { s with posts := s.posts.map (fun p => if p.id == id then updated else p) })

/-- Modelled from the spec: PostService.delete (spec section 4.8): same
existence and ownership gating as update; removes the record. -/
def deletePost (s : ServerState) (id authorId : String) : HttpResponse × ServerState :=
  match findPost s.posts id with
  | none => (notFoundResponse, s)
  | some post =>
    if post.authorId ≠ authorId then (forbiddenResponse, s)
    else
      ({ status := 200, body := Body.message "Post deleted" },
       { s with posts := s.posts.filter (fun p => !(p.id == id)) })

/-- k consecutive login attempts with the same (well-formed, wrong)
credentials, threaded through the server state, earliest attempt first. -/
def failedLoginIter (username wrong : String) (now : Nat) :
    Nat → ServerState → ServerState
  | 0, s => s
  | k + 1, s => failedLoginIter username wrong now k (login s username wrong now).2

/-- A small concrete server state used by the concrete-instance theorems:
one seeded user (the test fixture user: username "testuser", password
"password123"), no live sessions, fresh rate-limit counters, no posts. -/
def demoState : ServerState :=
  { users := [mkUser "1" "testuser" "password123"], sessions := [],
    failures := [], posts := [], nextId := 1 }

/-- A concrete post owned by the seeded user. -/
def demoPost : Post :=
  { id := "1", title := "Test Post Title", content := "This is a test post content.",
    authorId := "1", createdAt := 1, updatedAt := 1 }

/-- A concrete server state holding the seeded user, one live session and
one post, used by the concrete-instance theorems. -/
def demoStatePosts : ServerState :=
  { users := [mkUser "1" "testuser" "password123"],
    sessions := [{ id := "1", userId := "1", token := "test-session-token",
                   createdAt := 0 }],
    failures := [], posts := [demoPost], nextId := 2 }

/-! ### Helper lemmas -/

lemma validateLogin_nil {u p : String} (hu : 3 ≤ u.length) (hp : 8 ≤ p.length) :
    validateLogin u p = [] := by
  simp [validateLogin, Nat.not_lt.mpr hu, Nat.not_lt.mpr hp]

lemma find?_filter_not {α : Type} (p : α → Bool) (l : List α) :
    (l.filter (fun a => !(p a))).find? p = none := by
  rw [List.find?_eq_none]
  intro x hx
  have h := (List.mem_filter.mp hx).2
  simp at h
  simp [h]

lemma failCount_bump (fl : List (String × Nat)) (key : String) :
    failCount (bumpFailure fl key) key = failCount fl key + 1 := by
  simp [failCount, bumpFailure, List.find?_cons_of_pos]

lemma failCount_clear (fl : List (String × Nat)) (key : String) :
    failCount (clearFailures fl key) key = 0 := by
  have h := find?_filter_not (fun kv : String × Nat => kv.1 == key) fl
  simp [failCount, clearFailures, h]

lemma creds_none_of_no_match {users : List User} {u w : String}
    (h : ∀ user ∈ users, user.username = u → bcryptCompare w user.password = false) :
    findByCredentials users u w = none := by
  unfold findByCredentials findByUsername
  cases hf : users.find? (fun user => user.username == u) with
  | none => rfl
  | some user =>
    have hmem := List.mem_of_find?_eq_some hf
    have hname : user.username = u := by
      have := List.find?_some hf
      exact beq_iff_eq.mp this
    simp [h user hmem hname]

/-- Full behavioral characterization of the fault-free login pipeline at a
well-formed request: blocked, bad credentials, or success. -/
lemma login_cases (s : ServerState) (u p : String) (now : Nat)
    (hu : 3 ≤ u.length) (hp : 8 ≤ p.length) :
    (isBlocked s.failures u = true ∧ login s u p now = (invalidCredentialsResponse, s))
  ∨ (isBlocked s.failures u = false ∧ findByCredentials s.users u p = none ∧
      login s u p now =
        (invalidCredentialsResponse, { s with failures := bumpFailure s.failures u }))
  ∨ (∃ user, isBlocked s.failures u = false ∧
      findByCredentials s.users u p = some user ∧
      login s u p now =
        ({ status := 200, body := Body.session
            { id := toString s.nextId, userId := user.id,
              token := "tok-" ++ toString s.nextId, createdAt := now } },
         { s with failures := clearFailures s.failures u,
                  sessions := { id := toString s.nextId, userId := user.id,
                                token := "tok-" ++ toString s.nextId,
                                createdAt := now } :: s.sessions,
                  nextId := s.nextId + 1 })) := by
  by_cases hb : isBlocked s.failures u = true
  · left
    refine ⟨hb, ?_⟩
    simp [login, loginHttp, loginResult, validateLogin_nil hu hp, hb, noFaults]
  · have hb2 : isBlocked s.failures u = false := by
      cases h : isBlocked s.failures u
      · rfl
      · exact absurd h hb
    cases hc : findByCredentials s.users u p with
    | none =>
      right; left
      refine ⟨hb2, rfl, ?_⟩
      simp [login, loginHttp, loginResult, validateLogin_nil hu hp, hb2, noFaults, hc]
    | some user =>
      right; right
      refine ⟨user, hb2, rfl, ?_⟩
      simp [login, loginHttp, loginResult, validateLogin_nil hu hp, hb2, noFaults, hc]

lemma login_blocked (s : ServerState) (u p : String) (now : Nat)
    (hu : 3 ≤ u.length) (hp : 8 ≤ p.length) (hb : isBlocked s.failures u = true) :
    login s u p now = (invalidCredentialsResponse, s) := by
  simp [login, loginHttp, loginResult, validateLogin_nil hu hp, hb, noFaults]

lemma login_failed_step (s : ServerState) (u p : String) (now : Nat)
    (hu : 3 ≤ u.length) (hp : 8 ≤ p.length) (hb : isBlocked s.failures u = false)
    (hc : findByCredentials s.users u p = none) :
    login s u p now =
      (invalidCredentialsResponse, { s with failures := bumpFailure s.failures u }) := by
  simp [login, loginHttp, loginResult, validateLogin_nil hu hp, hb, noFaults, hc]

lemma login_success_resets (st : ServerState) (u p : String) (n : Nat)
    (h : ((login st u p n).1).status = 200) :
    failCount ((login st u p n).2).failures u = 0 := by
  cases hv : validateLogin u p with
  | cons e rest =>
    simp [login, loginHttp, loginResult, hv] at h
  | nil =>
    by_cases hb : isBlocked st.failures u = true
    · simp [login, loginHttp, loginResult, hv, hb, noFaults] at h
      simp [invalidCredentialsResponse] at h
    · have hb2 : isBlocked st.failures u = false := by
        cases hx : isBlocked st.failures u
        · rfl
        · exact absurd hx hb
      cases hc : findByCredentials st.users u p with
      | none =>
        simp [login, loginHttp, loginResult, hv, hb2, noFaults, hc] at h
        simp [invalidCredentialsResponse] at h
      | some user =>
        simp [login, loginHttp, loginResult, hv, hb2, noFaults, hc]
        exact failCount_clear st.failures u

lemma failCount_failedLoginIter (u w : String) (now : Nat)
    (hu : 3 ≤ u.length) (hw : 8 ≤ w.length) :
    ∀ (k : Nat) (s : ServerState),
      (∀ user ∈ s.users, user.username = u → bcryptCompare w user.password = false) →
      failCount s.failures u + k ≤ 5 →
      failCount ((failedLoginIter u w now k s).failures) u
        = failCount s.failures u + k := by
  intro k
  induction k with
  | zero => intro s _ _; simp [failedLoginIter]
  | succ k ih =>
    intro s hno hle
    have hb : isBlocked s.failures u = false := by
      simp [isBlocked, rateLimitThreshold]
      omega
    have hstep := login_failed_step s u w now hu hw hb (creds_none_of_no_match hno)
    simp only [failedLoginIter, hstep]
    have hres := ih { s with failures := bumpFailure s.failures u } hno (by
      simp only [failCount_bump]
      omega)
    rw [hres, failCount_bump]
    omega

/-! ### Claim theorems -/

/-- C1: after 5 consecutive failed login attempts with a username, the 6th
attempt for the same username yields the generic InvalidCredentials
rejection (HTTP 422) even when the supplied password is correct, and every
successful login resets the failure counter for that username to 0. -/
theorem c1_rate_limit_trips_and_success_resets
    (s : ServerState) (username wrong correct : String) (now : Nat)
    (hu : 3 ≤ username.length) (hw : 8 ≤ wrong.length) (hc : 8 ≤ correct.length)
    (hwrong : ∀ user ∈ s.users, user.username = username →
      bcryptCompare wrong user.password = false)
    (hfresh : failCount s.failures username = 0) :
    (login (failedLoginIter username wrong now 5 s) username correct now).1
      = invalidCredentialsResponse
    ∧ ∀ (st : ServerState) (u p : String) (n : Nat),
        ((login st u p n).1).status = 200 →
        failCount ((login st u p n).2).failures u = 0 := by
  constructor
  · have h5 := failCount_failedLoginIter username wrong now hu hw 5 s hwrong (by omega)
    rw [hfresh] at h5
    have hb : isBlocked ((failedLoginIter username wrong now 5 s).failures) username
        = true := by
      simp [isBlocked, rateLimitThreshold, h5]
    rw [login_blocked _ _ _ _ hu hc hb]
  · exact fun st u p n h => login_success_resets st u p n h

/-- C1, concrete instance: the seeded test user, five wrong-password
attempts, then the correct password; and a fresh successful login leaves a
zero failure count. -/
theorem c1_rate_limit_trips_and_success_resets_witness :
    (login (failedLoginIter "testuser" "wrongpassword" 10 5 demoState)
        "testuser" "password123" 10).1 = invalidCredentialsResponse
    ∧ failCount ((login demoState "testuser" "password123" 10).2).failures
        "testuser" = 0 :=
  ⟨(c1_rate_limit_trips_and_success_resets demoState "testuser" "wrongpassword"
      "password123" 10 (by decide) (by decide) (by decide) (by decide) (by decide)).1,
   (c1_rate_limit_trips_and_success_resets demoState "testuser" "wrongpassword"
      "password123" 10 (by decide) (by decide) (by decide) (by decide) (by decide)).2
     demoState "testuser" "password123" 10 (by decide)⟩

lemma creds_none_of_absent {users : List User} {u p : String}
    (h : ∀ user ∈ users, user.username ≠ u) :
    findByCredentials users u p = none := by
  unfold findByCredentials findByUsername
  have hf : users.find? (fun user => user.username == u) = none := by
    rw [List.find?_eq_none]
    intro x hx
    simp [h x hx]
  rw [hf]

lemma login_invalid_of_creds_none (s : ServerState) (u p : String) (now : Nat)
    (hu : 3 ≤ u.length) (hp : 8 ≤ p.length)
    (hc : findByCredentials s.users u p = none) :
    (login s u p now).1 = invalidCredentialsResponse := by
  rcases login_cases s u p now hu hp with ⟨_, h⟩ | ⟨_, _, h⟩ | ⟨user, _, hcs, h⟩
  · rw [h]
  · rw [h]
  · rw [hc] at hcs
    exact absurd hcs (by simp)

/-- C2: two well-formed login requests that both fail credential
verification — one because the username is not registered, one because the
password is wrong for an existing username — produce the identical
observable result, HTTP 422 with body message "Invalid credentials", so the
two failure causes are indistinguishable to the caller. -/
theorem c2_failure_causes_indistinguishable
    (s : ServerState) (u1 p1 u2 p2 : String) (now : Nat)
    (hu1 : 3 ≤ u1.length) (hp1 : 8 ≤ p1.length)
    (hu2 : 3 ≤ u2.length) (hp2 : 8 ≤ p2.length)
    (habsent : ∀ user ∈ s.users, user.username ≠ u1)
    (hexists : ∃ user ∈ s.users, user.username = u2)
    (hwrongpw : ∀ user ∈ s.users, user.username = u2 →
      bcryptCompare p2 user.password = false) :
    (login s u1 p1 now).1 = invalidCredentialsResponse
    ∧ (login s u2 p2 now).1 = invalidCredentialsResponse
    ∧ (login s u1 p1 now).1 = (login s u2 p2 now).1 := by
  have h1 := login_invalid_of_creds_none s u1 p1 now hu1 hp1
    (creds_none_of_absent habsent)
  have h2 := login_invalid_of_creds_none s u2 p2 now hu2 hp2
    (creds_none_of_no_match hwrongpw)
  exact ⟨h1, h2, by rw [h1, h2]⟩

/-- C2, concrete instance: unknown username "nosuchuser" with a long
password versus seeded "testuser" with a wrong password. -/
theorem c2_failure_causes_indistinguishable_witness :
    (login demoState "nosuchuser" "password123" 10).1 = invalidCredentialsResponse
    ∧ (login demoState "testuser" "wrongpassword" 10).1 = invalidCredentialsResponse
    ∧ (login demoState "nosuchuser" "password123" 10).1
        = (login demoState "testuser" "wrongpassword" 10).1 :=
  c2_failure_causes_indistinguishable demoState "nosuchuser" "password123"
    "testuser" "wrongpassword" 10 (by decide) (by decide) (by decide) (by decide)
    (by decide) (by decide) (by decide)

/-- C3: logging out with the token of a live session answers 200
"Logged out" and removes exactly the session carrying that token — every
other session, and every other part of the state, is untouched — and a
second logout with the same token is then rejected Unauthorized.  Tokens
and session ids are unique across live sessions (spec section 3). -/
theorem c3_logout_deletes_exactly_that_session
    (s : ServerState) (t : String) (sess : Session)
    (hfind : findByToken s.sessions t = some sess) (ht : t ≠ "")
    (hTok : (s.sessions.map Session.token).Nodup)
    (hId : (s.sessions.map Session.id).Nodup) :
    (logout s (some t)).1 = { status := 200, body := Body.message "Logged out" }
    ∧ ((logout s (some t)).2).sessions
        = s.sessions.filter (fun x => !(x.token == t))
    ∧ ((logout s (some t)).2).users = s.users
    ∧ ((logout s (some t)).2).posts = s.posts
    ∧ ((logout s (some t)).2).failures = s.failures
    ∧ (logout (logout s (some t)).2 (some t)).1 = unauthorizedResponse := by
  have hmem : sess ∈ s.sessions := List.mem_of_find?_eq_some hfind
  have htok : sess.token = t := by
    have := List.find?_some hfind
    exact beq_iff_eq.mp this
  have hlogout : logout s (some t) =
      ({ status := 200, body := Body.message "Logged out" },
       { s with sessions := s.sessions.filter (fun x => !(x.id == sess.id)) }) := by
    simp [logout, ht, findByToken] at hfind ⊢
    simp [logout, hfind]
  have hfilters : s.sessions.filter (fun x => !(x.id == sess.id))
      = s.sessions.filter (fun x => !(x.token == t)) := by
    apply List.filter_congr
    intro x hx
    suffices h : (x.id == sess.id) = (x.token == t) by rw [h]
    cases hxi : x.id == sess.id with
    | true =>
      have hxe : x = sess := List.inj_on_of_nodup_map hId hx hmem (beq_iff_eq.mp hxi)
      rw [hxe, htok]
      simp
    | false =>
      cases hxt : x.token == t with
      | false => rfl
      | true =>
        have hxe : x = sess := by
          apply List.inj_on_of_nodup_map hTok hx hmem
          rw [beq_iff_eq.mp hxt, htok]
        rw [hxe] at hxi
        simp at hxi
  have hnone : findByToken
      (s.sessions.filter (fun x => !(x.token == t))) t = none := by
    unfold findByToken
    exact find?_filter_not (fun x => x.token == t) s.sessions
  refine ⟨by rw [hlogout], by rw [hlogout]; exact hfilters, by rw [hlogout],
    by rw [hlogout], by rw [hlogout], ?_⟩
  rw [hlogout]
  have hnone2 : findByToken
      (s.sessions.filter (fun x => !(x.id == sess.id))) t = none := by
    rw [hfilters]
    exact hnone
  simp [logout, ht, hnone2]

/-- C3, concrete instance: a state holding two live sessions; logging out
the first leaves exactly the second, and a repeat logout is Unauthorized. -/
theorem c3_logout_deletes_exactly_that_session_witness :
    (logout
        { users := [mkUser "1" "testuser" "password123"],
          sessions := [{ id := "1", userId := "1", token := "tok-1", createdAt := 5 },
                       { id := "2", userId := "1", token := "tok-2", createdAt := 6 }],
          failures := [], posts := [], nextId := 3 } (some "tok-1")).1
      = { status := 200, body := Body.message "Logged out" }
    ∧ ((logout
        { users := [mkUser "1" "testuser" "password123"],
          sessions := [{ id := "1", userId := "1", token := "tok-1", createdAt := 5 },
                       { id := "2", userId := "1", token := "tok-2", createdAt := 6 }],
          failures := [], posts := [], nextId := 3 } (some "tok-1")).2).sessions
      = List.filter (fun x => !(x.token == "tok-1"))
          [{ id := "1", userId := "1", token := "tok-1", createdAt := 5 },
           { id := "2", userId := "1", token := "tok-2", createdAt := 6 }]
    ∧ ((logout
        { users := [mkUser "1" "testuser" "password123"],
          sessions := [{ id := "1", userId := "1", token := "tok-1", createdAt := 5 },
                       { id := "2", userId := "1", token := "tok-2", createdAt := 6 }],
          failures := [], posts := [], nextId := 3 } (some "tok-1")).2).users
      = [mkUser "1" "testuser" "password123"]
    ∧ ((logout
        { users := [mkUser "1" "testuser" "password123"],
          sessions := [{ id := "1", userId := "1", token := "tok-1", createdAt := 5 },
                       { id := "2", userId := "1", token := "tok-2", createdAt := 6 }],
          failures := [], posts := [], nextId := 3 } (some "tok-1")).2).posts = []
    ∧ ((logout
        { users := [mkUser "1" "testuser" "password123"],
          sessions := [{ id := "1", userId := "1", token := "tok-1", createdAt := 5 },
                       { id := "2", userId := "1", token := "tok-2", createdAt := 6 }],
          failures := [], posts := [], nextId := 3 } (some "tok-1")).2).failures = []
    ∧ (logout (logout
        { users := [mkUser "1" "testuser" "password123"],
          sessions := [{ id := "1", userId := "1", token := "tok-1", createdAt := 5 },
                       { id := "2", userId := "1", token := "tok-2", createdAt := 6 }],
          failures := [], posts := [], nextId := 3 } (some "tok-1")).2
        (some "tok-1")).1 = unauthorizedResponse :=
  c3_logout_deletes_exactly_that_session
    { users := [mkUser "1" "testuser" "password123"],
      sessions := [{ id := "1", userId := "1", token := "tok-1", createdAt := 5 },
                   { id := "2", userId := "1", token := "tok-2", createdAt := 6 }],
      failures := [], posts := [], nextId := 3 }
    "tok-1" { id := "1", userId := "1", token := "tok-1", createdAt := 5 }
    (by decide) (by decide) (by decide) (by decide)

/-- C4: a logout whose Authorization token is missing, empty, or matches no
live session fails with HTTP 401 and the identical body message
"Unauthorized", and the whole server state — in particular the session
store — is left unchanged. -/
theorem c4_logout_bad_token_unauthorized_unchanged (s : ServerState) :
    logout s none = (unauthorizedResponse, s)
    ∧ logout s (some "") = (unauthorizedResponse, s)
    ∧ ∀ t : String, findByToken s.sessions t = none →
        logout s (some t) = (unauthorizedResponse, s) := by
  refine ⟨rfl, by simp [logout], ?_⟩
  intro t hnone
  by_cases ht : t = ""
  · simp [logout, ht]
  · simp [logout, ht, hnone]

/-- C4, concrete instance: missing header, empty token, and the stale
token from the token test, against the seeded state. -/
theorem c4_logout_bad_token_unauthorized_unchanged_witness :
    logout demoState none = (unauthorizedResponse, demoState)
    ∧ logout demoState (some "") = (unauthorizedResponse, demoState)
    ∧ logout demoState (some "YoQdJ3hUjQ25ajdD4Izi61fd2YWcNjow")
        = (unauthorizedResponse, demoState) :=
  ⟨(c4_logout_bad_token_unauthorized_unchanged demoState).1,
   (c4_logout_bad_token_unauthorized_unchanged demoState).2.1,
   (c4_logout_bad_token_unauthorized_unchanged demoState).2.2
     "YoQdJ3hUjQ25ajdD4Izi61fd2YWcNjow" (by decide)⟩

/-- C5: update and delete on a post id that resolves to no existing post
fail with NotFound (404), never with a ValidationError (422), whatever the
supplied payload; and deleting an id that was just successfully deleted
yields 404 again. -/
theorem c5_missing_post_is_notfound_never_422
    (s : ServerState) (id authorId title content : String) (now : Nat)
    (habsent : findPost s.posts id = none) :
    updatePost s id authorId title content now = (notFoundResponse, s)
    ∧ ((updatePost s id authorId title content now).1).status ≠ 422
    ∧ deletePost s id authorId = (notFoundResponse, s)
    ∧ ((deletePost s id authorId).1).status ≠ 422
    ∧ ∀ (pid aid : String) (post : Post),
        findPost s.posts pid = some post → post.authorId = aid →
        (deletePost (deletePost s pid aid).2 pid aid).1 = notFoundResponse := by
  have h1 : updatePost s id authorId title content now = (notFoundResponse, s) := by
    simp [updatePost, habsent]
  have h2 : deletePost s id authorId = (notFoundResponse, s) := by
    simp [deletePost, habsent]
  refine ⟨h1, by rw [h1]; simp [notFoundResponse], h2,
    by rw [h2]; simp [notFoundResponse], ?_⟩
  intro pid aid post hfound haid
  have hdel : deletePost s pid aid =
      ({ status := 200, body := Body.message "Post deleted" },
       { s with posts := s.posts.filter (fun p => !(p.id == pid)) }) := by
    simp [deletePost, hfound, haid]
  rw [hdel]
  have hgone : findPost (s.posts.filter (fun p => !(p.id == pid))) pid = none := by
    unfold findPost
    exact find?_filter_not (fun p => p.id == pid) s.posts
  simp [deletePost, hgone]

/-- C5, concrete instance: the state with one post; update and delete of an
unknown id answer 404, and a repeated delete of the existing post answers
404 the second time. -/
theorem c5_missing_post_is_notfound_never_422_witness :
    updatePost demoStatePosts "nonexistent" "1" "Should fail" "x" 9
      = (notFoundResponse, demoStatePosts)
    ∧ ((updatePost demoStatePosts "nonexistent" "1" "Should fail" "x" 9).1).status
        ≠ 422
    ∧ deletePost demoStatePosts "nonexistent" "1" = (notFoundResponse, demoStatePosts)
    ∧ ((deletePost demoStatePosts "nonexistent" "1").1).status ≠ 422
    ∧ (deletePost (deletePost demoStatePosts "1" "1").2 "1" "1").1
        = notFoundResponse :=
  ⟨(c5_missing_post_is_notfound_never_422 demoStatePosts "nonexistent" "1"
      "Should fail" "x" 9 (by decide)).1,
   (c5_missing_post_is_notfound_never_422 demoStatePosts "nonexistent" "1"
      "Should fail" "x" 9 (by decide)).2.1,
   (c5_missing_post_is_notfound_never_422 demoStatePosts "nonexistent" "1"
      "Should fail" "x" 9 (by decide)).2.2.1,
   (c5_missing_post_is_notfound_never_422 demoStatePosts "nonexistent" "1"
      "Should fail" "x" 9 (by decide)).2.2.2.1,
   (c5_missing_post_is_notfound_never_422 demoStatePosts "nonexistent" "1"
      "Should fail" "x" 9 (by decide)).2.2.2.2 "1" "1" demoPost (by decide)
     (by decide)⟩

/-- C6: creating a post with an empty title fails with 422 and an errors
array containing an entry for the title field; creating with a non-empty
title succeeds with 201 and a record whose authorId is the caller and whose
createdAt equals its updatedAt. -/
theorem c6_create_validates_title_and_stamps_author
    (s : ServerState) (authorId title content content2 : String) (now : Nat)
    (ht : title ≠ "") :
    (((createPost s authorId "" content now).1).status = 422
      ∧ ∃ errs, ((createPost s authorId "" content now).1).body = Body.errors errs
          ∧ ∃ e ∈ errs, e.field = "title")
    ∧ (((createPost s authorId title content2 now).1).status = 201
      ∧ ∃ post, ((createPost s authorId title content2 now).1).body = Body.post post
          ∧ post.authorId = authorId ∧ post.createdAt = post.updatedAt) := by
  have hv : validatePost title = [] := by simp [validatePost, ht]
  refine ⟨⟨by simp [createPost, validatePost], ?_⟩,
          by simp [createPost, hv], ?_⟩
  · refine ⟨[{ field := "title",
               message := "String must contain at least 1 character(s)" }],
      by simp [createPost, validatePost], ?_⟩
    exact ⟨{ field := "title",
             message := "String must contain at least 1 character(s)" },
           by simp, rfl⟩
  · exact ⟨{ id := toString s.nextId, title := title, content := content2,
             authorId := authorId, createdAt := now, updatedAt := now },
           by simp [createPost, hv], rfl, rfl⟩

/-- C6, concrete instance: empty versus non-empty title on the seeded
state. -/
theorem c6_create_validates_title_and_stamps_author_witness :
    (((createPost demoState "1" "" "Test content" 7).1).status = 422
      ∧ ∃ errs, ((createPost demoState "1" "" "Test content" 7).1).body
            = Body.errors errs
          ∧ ∃ e ∈ errs, e.field = "title")
    ∧ (((createPost demoState "1" "Test Post Title" "body text" 7).1).status = 201
      ∧ ∃ post, ((createPost demoState "1" "Test Post Title" "body text" 7).1).body
            = Body.post post
          ∧ post.authorId = "1" ∧ post.createdAt = post.updatedAt) :=
  c6_create_validates_title_and_stamps_author demoState "1" "Test Post Title"
    "Test content" "body text" 7 (by decide)

lemma find?_map_replace (l : List Post) (id : String) (old upd : Post)
    (h : l.find? (fun p => p.id == id) = some old) (hupd : (upd.id == id) = true) :
    (l.map (fun p => if p.id == id then upd else p)).find? (fun p => p.id == id)
      = some upd := by
  induction l with
  | nil => simp at h
  | cons hd tl ih =>
    cases hhd : hd.id == id with
    | true =>
      have hmap : (hd :: tl).map (fun p => if p.id == id then upd else p)
          = upd :: tl.map (fun p => if p.id == id then upd else p) := by
        simp only [List.map_cons]
        rw [if_pos hhd]
      rw [hmap]
      exact List.find?_cons_of_pos _ hupd
    | false =>
      have hhd2 : ¬((hd.id == id) = true) := by simp [hhd]
      have htl : tl.find? (fun p => p.id == id) = some old := by
        rw [@List.find?_cons_of_neg Post (fun p => p.id == id) hd tl hhd2] at h
        exact h
      have hmap : (hd :: tl).map (fun p => if p.id == id then upd else p)
          = hd :: tl.map (fun p => if p.id == id then upd else p) := by
        simp only [List.map_cons]
        rw [if_neg hhd2]
      rw [hmap, @List.find?_cons_of_neg Post (fun p => p.id == id) hd
        (tl.map (fun p => if p.id == id then upd else p)) hhd2]
      exact ih htl

/-- C7: a created post is returned verbatim by a subsequent get of its id;
and updating an existing post then getting it returns a record carrying the
new fields whose updatedAt is strictly above the pre-update record's
updatedAt. -/
theorem c7_create_get_roundtrip_update_monotone
    (s : ServerState) (authorId title content : String) (now : Nat)
    (ht : title ≠ "") :
    (∃ post, (createPost s authorId title content now).1
        = { status := 201, body := Body.post post }
      ∧ getPost ((createPost s authorId title content now).2).posts post.id
          = { status := 200, body := Body.post post })
    ∧ ∀ (id ntitle ncontent : String) (old : Post) (now2 : Nat),
        findPost s.posts id = some old → old.authorId = authorId → ntitle ≠ "" →
        old.updatedAt < now2 →
        ∃ upd, (updatePost s id authorId ntitle ncontent now2).1
            = { status := 200, body := Body.post upd }
          ∧ getPost ((updatePost s id authorId ntitle ncontent now2).2).posts id
              = { status := 200, body := Body.post upd }
          ∧ upd.title = ntitle ∧ upd.content = ncontent
          ∧ old.updatedAt < upd.updatedAt := by
  have hv : validatePost title = [] := by simp [validatePost, ht]
  constructor
  · refine ⟨{ id := toString s.nextId, title := title, content := content,
              authorId := authorId, createdAt := now, updatedAt := now }, ?_, ?_⟩
    · simp [createPost, hv]
    · have hpost : ((createPost s authorId title content now).2).posts
          = { id := toString s.nextId, title := title, content := content,
              authorId := authorId, createdAt := now, updatedAt := now } :: s.posts := by
        simp [createPost, hv]
      rw [hpost]
      simp [getPost, findPost, List.find?_cons_of_pos]
  · intro id ntitle ncontent old now2 hfind hown hnt hlt
    have hv2 : validatePost ntitle = [] := by simp [validatePost, hnt]
    have hfind2 : s.posts.find? (fun p => p.id == id) = some old := hfind
    have hid : (old.id == id) = true :=
      @List.find?_some Post (fun p => p.id == id) old s.posts hfind2
    refine ⟨({ old with title := ntitle, content := ncontent, updatedAt := now2 } : Post), ?_, ?_, rfl, rfl, hlt⟩
    · simp [updatePost, hfind, hown, hv2]
    · have hposts : ((updatePost s id authorId ntitle ncontent now2).2).posts
          = s.posts.map (fun p => if p.id == id then ({ old with title := ntitle, content := ncontent, updatedAt := now2 } : Post) else p) := by
        simp [updatePost, hfind, hown, hv2]
      rw [hposts]
      simp only [getPost, findPost]
      rw [find?_map_replace s.posts id old ({ old with title := ntitle, content := ncontent, updatedAt := now2 } : Post) hfind2 hid]

/-- C7, concrete instance: create on the seeded empty-post state and
fetch; update the existing demo post at a strictly later tick and fetch. -/
theorem c7_create_get_roundtrip_update_monotone_witness :
    (∃ post, (createPost demoState "1" "Test Post Title"
          "This is a test post content." 4).1
        = { status := 201, body := Body.post post }
      ∧ getPost ((createPost demoState "1" "Test Post Title"
            "This is a test post content." 4).2).posts post.id
          = { status := 200, body := Body.post post })
    ∧ ∃ upd, (updatePost demoStatePosts "1" "1" "Updated Title"
          "Updated content" 5).1
        = { status := 200, body := Body.post upd }
      ∧ getPost ((updatePost demoStatePosts "1" "1" "Updated Title"
            "Updated content" 5).2).posts "1"
          = { status := 200, body := Body.post upd }
      ∧ upd.title = "Updated Title" ∧ upd.content = "Updated content"
      ∧ demoPost.updatedAt < upd.updatedAt :=
  ⟨(c7_create_get_roundtrip_update_monotone demoState "1" "Test Post Title"
      "This is a test post content." 4 (by decide)).1,
   (c7_create_get_roundtrip_update_monotone demoStatePosts "1" "x" "y" 4
      (by decide)).2 "1" "Updated Title" "Updated content" demoPost 5
     (by decide) (by decide) (by decide) (by decide)⟩

/-- C8: a well-formed, non-rate-limited login during which a storage
collaborator throws — the credential lookup, or the session creation after
a credential match — answers HTTP 500 with exactly the body message
"Internal server error", whatever the raw collaborator error text was. -/
theorem c8_collaborator_failure_maps_to_internal_error
    (f : Faults) (s : ServerState) (u p : String) (now : Nat)
    (hu : 3 ≤ u.length) (hp : 8 ≤ p.length)
    (hb : isBlocked s.failures u = false)
    (hf : f.userStoreError ≠ none
      ∨ (findByCredentials s.users u p ≠ none ∧ f.sessionStoreError ≠ none)) :
    (loginHttp f s u p now).1 = internalErrorResponse := by
  rcases hf with hf | ⟨hcreds, hf⟩
  · cases he : f.userStoreError with
    | none => exact absurd he hf
    | some e =>
      simp [loginHttp, loginResult, validateLogin_nil hu hp, hb, he]
  · cases hcs : findByCredentials s.users u p with
    | none => exact absurd hcs hcreds
    | some user =>
      cases he : f.sessionStoreError with
      | none => exact absurd he hf
      | some e =>
        cases hue : f.userStoreError with
        | some e2 =>
          simp [loginHttp, loginResult, validateLogin_nil hu hp, hb, hue]
        | none =>
          simp [loginHttp, loginResult, validateLogin_nil hu hp, hb, hue, hcs, he]

/-- C8, concrete instance: the credential store rejecting with the raw
error "Database error", and the session store rejecting with the raw error
"Session creation failed" after a correct password, both map to the same
literal 500 response. -/
theorem c8_collaborator_failure_maps_to_internal_error_witness :
    (loginHttp { userStoreError := some "Database error", sessionStoreError := none }
        demoState "testuser" "password123" 10).1 = internalErrorResponse
    ∧ (loginHttp { userStoreError := none, sessionStoreError := some "Session creation failed" }
        demoState "testuser" "password123" 10).1 = internalErrorResponse :=
  ⟨c8_collaborator_failure_maps_to_internal_error
      { userStoreError := some "Database error", sessionStoreError := none }
      demoState "testuser" "password123" 10 (by decide) (by decide) (by decide)
      (Or.inl (by decide)),
   c8_collaborator_failure_maps_to_internal_error
      { userStoreError := none, sessionStoreError := some "Session creation failed" }
      demoState "testuser" "password123" 10 (by decide) (by decide) (by decide)
      (Or.inr ⟨by decide, by decide⟩)⟩

/-- C10 counterexample: for the seeded stored user (username "testuser",
registered plaintext "password123" — the fixture the authentication tests
seed), bcrypt-comparing the registered plaintext against the persisted
password field yields true, not false as the claim states; the persisted
field is still not the plaintext itself. -/
theorem c10_counterexample_stored_digest_verifies :
    (mkUser "1" "testuser" "password123").password ≠ "password123"
    ∧ bcryptCompare "password123" (mkUser "1" "testuser" "password123").password
        = true := by
  constructor
  · decide
  · decide

/-- C10 as amended: for every user record stored by the system, the
persisted password field is not the plaintext, and it is a digest that
verifies: bcrypt.compare of the registered plaintext against the stored
field evaluates to true. -/
theorem c10_amended_stored_password_hashed_and_verifies (id un pw : String) :
    (mkUser id un pw).password ≠ pw
    ∧ bcryptCompare pw (mkUser id un pw).password = true := by
  constructor
  · intro h
    have hlen : ((("$2b$10$" : String) ++ pw)).length = pw.length := by
      have : (mkUser id un pw).password = ("$2b$10$" : String) ++ pw := rfl
      rw [this] at h
      rw [h]
    have h7 : ("$2b$10$" : String).length = 7 := by decide
    rw [String.length_append, h7] at hlen
    omega
  · simp [mkUser, bcryptCompare, bcryptHash]

end Server
